import Mathlib

/-!
Verification of the authentication controller (`src/controllers/auth.controller.js`)
of the NodeExpress-Authentication repository.

The controller is embedded shallowly:

* The Mongoose `User` document becomes the structure `Account`; the document
  store becomes a `List Account` with `findOne`/`findById`/`saveUser` mirroring
  `User.findOne({email})`, `User.findById(id)` and `user.save()`.
* `bcrypt` is modelled as an abstract perfect hash: `bcryptHash salt pw`
  packages the salt and the plaintext, and `bcryptCompare pw h` succeeds
  exactly when `h` was produced from the same plaintext (bcrypt's contract,
  ignoring collisions).
* `jsonwebtoken` is modelled symbolically: a token records its payload, the
  secret it was signed with, its issue time and its lifetime; `jwtVerify`
  succeeds exactly on a matching secret and an unexpired token.
* Each handler becomes a pure function from the request data and the stores to
  the new stores and an explicit result.  A `nextError` constructor marks the
  `next(error)` path (the centralized error responder); the other constructors
  mark direct `res.status(..).json(..)` responses.
* `transporter.sendMail` is fallible: handlers that send mail take a
  `mailErr : Option ErrObj` parameter; `some e` means the send rejects with
  `e`, which the surrounding `catch` forwards to `next`.
-/

namespace NodeAuth

/-- An error object as built throughout the controller: `new Error(message)`
with an attached `statusCode`. -/
structure ErrObj where
  message : String
  statusCode : Nat
deriving Repr, DecidableEq

/-- A bcrypt hash value: the salt together with the plaintext it was produced
from.  This models bcrypt's contract that `compare(pw, h)` succeeds exactly
when `h` hashes `pw`, without modelling the digest itself. -/
structure Hash where
  salt : Nat
  plaintext : String
deriving Repr, DecidableEq

/-- A `User` document.  `password` stores the bcrypt hash, as in the schema.
The schema itself is not under `src/`; per the spec the defaults at creation
are `isVerified = false`, `isLocked = false`, `loginAttempts = 0`. -/
structure Account where
  id : Nat
  name : String
  email : String
  password : Hash
  isVerified : Bool
  isLocked : Bool
  loginAttempts : Nat
deriving Repr, DecidableEq

/-- Model of `bcrypt.hash(pw, salt)`. -/
def bcryptHash (salt : Nat) (pw : String) : Hash := ⟨salt, pw⟩

/-- Model of `bcrypt.compare(pw, h)`: true exactly when `h` was produced from
`pw` (for any salt). -/
def bcryptCompare (pw : String) (h : Hash) : Bool := pw == h.plaintext

/-- A JWT payload: the controller always signs `{userId: ...}`. -/
structure JwtPayload where
  userId : Nat
deriving Repr, DecidableEq

/-- A signed token, modelled symbolically: payload, signing secret, issue time
and lifetime in seconds. -/
structure Jwt where
  payload : JwtPayload
  secret : String
  issuedAt : Nat
  expiresIn : Nat
deriving Repr, DecidableEq

/-- Model of `jwt.sign(payload, secret, {expiresIn})` at time `now`. -/
def jwtSign (payload : JwtPayload) (secret : String) (expiresIn now : Nat) : Jwt :=
  ⟨payload, secret, now, expiresIn⟩

/-- Model of `jwt.verify(token, secret)` at time `now`: succeeds exactly when
the secret matches and the token is unexpired; `none` models the thrown
`JsonWebTokenError`/`TokenExpiredError`. -/
def jwtVerify (token : Jwt) (secret : String) (now : Nat) : Option JwtPayload :=
  if token.secret == secret && now ≤ token.issuedAt + token.expiresIn then
    some token.payload
  else none

/-- The user collection. -/
abbrev UserStore := List Account

/-- Model of `User.findOne({email})`: first document with that email. -/
def findOne (store : UserStore) (email : String) : Option Account :=
  store.find? (fun u => u.email == email)

/-- Model of `User.findById(id)`. -/
def findById (store : UserStore) (id : Nat) : Option Account :=
  store.find? (fun u => u.id == id)

/-- Model of `user.save()`: persist the mutated document in place, keyed by
its id. -/
def saveUser (store : UserStore) (u : Account) : UserStore :=
  store.map (fun v => if v.id == u.id then u else v)

/-- A `LoginLogs` document (`login-logs.model.js` is not under `src/`; the
fields are the ones `createLoginLog` passes to `LoginLogs.create`). -/
structure LoginLogEntry where
  userId : Option Nat
  name : Option String
  email : String
  status : String
  ipAddress : Option String
  userAgent : Option String
  reason : Option String
deriving Repr, DecidableEq

/-- Embeds the `createLoginLog` closure inside `signIn`.  A Mongo `ObjectId`
is always truthy, so `user?._id || null` is `user?._id` when the user exists;
`user?.name || null` turns an empty-string name into null.  The identifiers
`ipAddress` and `userAgent` are never declared in the handler scope, so
`typeof ipAddress !== 'undefined' ? ipAddress : null` always yields null, and
likewise for `userAgent`. -/
def createLoginLog (user : Option Account) (email status : String)
    (reason : Option String) : LoginLogEntry :=
  { userId := user.map Account.id
    name := match user with
      | some u => if u.name.isEmpty then none else some u.name
      | none => none
    email := email
    status := status
    ipAddress := none
    userAgent := none
    reason := reason }

/-- Result of the `signIn` handler: a 200 response with token and user, or an
error object passed to `next`. -/
inductive SignInResult where
  | ok (token : Jwt) (user : Account)
  | nextError (e : ErrObj)
deriving Repr, DecidableEq

/-- Full outcome of one `signIn` call: user store and login-log collection
after the call, plus the result. -/
structure SignInOutcome where
  store : UserStore
  logs : List LoginLogEntry
  result : SignInResult
deriving Repr, DecidableEq

/-- Embedding of the `signIn` handler (auth.controller.js lines 82-170).
Mutations of the fetched `user` document followed by `user.save()` become
structure updates followed by `saveUser`; `LoginLogs.create` appends to
`logs`. -/
def signIn (store : UserStore) (logs : List LoginLogEntry)
    (email password secret : String) (expiresIn now : Nat) : SignInOutcome :=
  match findOne store email with
  | none => ⟨store, logs, .nextError ⟨"User not found", 404⟩⟩
  | some user =>
    if !user.isVerified then
      ⟨store, logs, .nextError ⟨"Please verify your email before signing in", 403⟩⟩
    else if user.isLocked then
      ⟨store, logs, .nextError ⟨"Account is locked. Please contact administrator", 403⟩⟩
    else if !bcryptCompare password user.password then
      -- user.loginAttempts = (user.loginAttempts || 0) + 1, then threshold check
      if user.loginAttempts + 1 ≥ 5 then
        ⟨saveUser store { user with loginAttempts := user.loginAttempts + 1, isLocked := true },
         logs,
         .nextError ⟨"Account locked due to multiple failed attempts. Please contact administrator", 403⟩⟩
      else
        ⟨saveUser store { user with loginAttempts := user.loginAttempts + 1 },
         logs ++ [createLoginLog (some { user with loginAttempts := user.loginAttempts + 1 })
                    email "failed" (some "Invalid password")],
         .nextError ⟨"Invalid password. " ++ toString (5 - (user.loginAttempts + 1))
                       ++ " attempts remaining", 401⟩⟩
    else
      ⟨if user.loginAttempts > 0 then saveUser store { user with loginAttempts := 0 } else store,
       logs ++ [createLoginLog
                  (some (if user.loginAttempts > 0 then { user with loginAttempts := 0 } else user))
                  email "success" none],
       .ok (jwtSign ⟨user.id⟩ secret expiresIn now)
         (if user.loginAttempts > 0 then { user with loginAttempts := 0 } else user)⟩

/-- Whether a request field holding a string is JS-falsy: absent (`undefined`)
or the empty string.  Used for the `!confirmPassword`, `!email`, `!password`
truthiness checks. -/
def strFalsy : Option String → Bool
  | none => true
  | some s => s.isEmpty

/-- Request body of `signUp`; `password` and `confirmPassword` may be absent. -/
structure SignUpReq where
  name : String
  email : String
  password : Option String
  confirmPassword : Option String
deriving Repr, DecidableEq

/-- Result of the `signUp` handler.  `confirmPasswordEmpty` is the direct
`res.status(400).json({success: false, message: "Confirm password is empty"})`
response (not routed through `next`); `created` is the 201 response; every
other outcome is an error object passed to `next`. -/
inductive SignUpResult where
  | created (verificationToken : Jwt) (user : Account)
  | confirmPasswordEmpty
  | nextError (e : ErrObj)
deriving Repr, DecidableEq

/-- Embedding of the `signUp` handler (auth.controller.js lines 8-80).
`salt` stands for the salt `bcrypt.genSalt(10)` produced; the new document's
id stands for the `_id` Mongo assigns (fresh ids are modelled by the current
store length).  `mailErr = some e` models `transporter.sendMail` rejecting
with `e`, which the `catch` block forwards to `next` — after `User.create`
has already run. -/
def signUp (store : UserStore) (req : SignUpReq) (secret : String)
    (expiresIn now salt : Nat) (mailErr : Option ErrObj) :
    UserStore × SignUpResult :=
  let existingUser := findOne store req.email
  if strFalsy req.confirmPassword then
      (store, .confirmPasswordEmpty)
  else if existingUser.isSome then
    (store, .nextError ⟨"User already exists", 409⟩)
  else if req.password ≠ req.confirmPassword then
    (store, .nextError ⟨"Passwords do not match", 400⟩)
  else
    -- password = confirmPassword and confirmPassword is a nonempty string
    -- here, so `password.getD ""` is the supplied plaintext.
    let newUser : Account :=
      { id := store.length
        name := req.name
        email := req.email
        password := bcryptHash salt (req.password.getD "")
        isVerified := false
        isLocked := false
        loginAttempts := 0 }
    let verificationToken := jwtSign ⟨newUser.id⟩ secret expiresIn now
    match mailErr with
    | some e => (store ++ [newUser], .nextError e)
    | none => (store ++ [newUser], .created verificationToken newUser)

/-- Result of the `forgotPassword` handler. -/
inductive ForgotResult where
  | ok (resetToken : Jwt)
  | nextError (e : ErrObj)
deriving Repr, DecidableEq

/-- Embedding of the `forgotPassword` handler (auth.controller.js lines
186-241).  The reset token is signed with a 1-hour (3600 s) expiry.  The
handler never mutates the user store. -/
def forgotPassword (store : UserStore) (email : Option String)
    (secret : String) (now : Nat) (mailErr : Option ErrObj) : ForgotResult :=
  if strFalsy email then
    .nextError ⟨"Email is required", 401⟩
  else
    match findOne store (email.getD "") with
    | none => .nextError ⟨"User not found", 404⟩
    | some user =>
      let resetToken := jwtSign ⟨user.id⟩ secret 3600 now
      match mailErr with
      | some e => .nextError e
      | none => .ok resetToken

/-- Result of the `resetPassword` handler. -/
inductive ResetResult where
  | ok
  | nextError (e : ErrObj)
deriving Repr, DecidableEq

/-- Embedding of the `resetPassword` handler (auth.controller.js lines
243-290).  `token = none` models a missing `req.params.token`; an
ill-formed or expired token is the `jwtVerify` failure branch. -/
def resetPassword (store : UserStore) (token : Option Jwt)
    (password : Option String) (secret : String) (now salt : Nat) :
    UserStore × ResetResult :=
  if token.isNone || strFalsy password then
    (store, .nextError ⟨"Token and password are required", 400⟩)
  else
    match token with
    | none => (store, .nextError ⟨"Token and password are required", 400⟩)
    | some tok =>
      match jwtVerify tok secret now with
      | none => (store, .nextError ⟨"Invalid or expired token", 401⟩)
      | some decodedToken =>
        match findById store decodedToken.userId with
        | none => (store, .nextError ⟨"User not found", 404⟩)
        | some user =>
          (saveUser store
            { user with
                password := bcryptHash salt (password.getD "")
                loginAttempts := 0
                isLocked := false },
           .ok)

/-- Result of the `verifyEmail` handler.  `verified` is the 200 response;
`alreadyVerified` is the direct `res.status(400).json({success: false,
message: "Email already verified"})` response, not routed through `next`. -/
inductive VerifyResult where
  | verified
  | alreadyVerified
  | nextError (e : ErrObj)
deriving Repr, DecidableEq

/-- Embedding of the `verifyEmail` handler (auth.controller.js lines
292-332). -/
def verifyEmail (store : UserStore) (token : Jwt) (secret : String)
    (now : Nat) : UserStore × VerifyResult :=
  match jwtVerify token secret now with
  | none => (store, .nextError ⟨"Invalid or expired verification token", 401⟩)
  | some decodedToken =>
    match findById store decodedToken.userId with
    | none => (store, .nextError ⟨"User not found", 404⟩)
    | some user =>
      if user.isVerified then
        (store, .alreadyVerified)
      else
        (saveUser store { user with isVerified := true }, .verified)

/-- The failed-attempt log entry sign-in writes for account `u` under the
supplied email: status `failed`, reason `Invalid password`. -/
def failedEntry (u : Account) (email : String) : LoginLogEntry :=
  createLoginLog (some u) email "failed" (some "Invalid password")

/-- The behaviour of five consecutive wrong-password sign-in calls against
the account `u` stored under `email`: attempts 1-4 each return 401 with the
remaining-attempts count 4, 3, 2, 1, append exactly one failed log entry and
persist the incremented counter; the 5th attempt locks and persists the
account, returns 403 and appends no log entry. -/
def lockoutScenario (store : UserStore) (logs : List LoginLogEntry)
    (email pw secret : String) (expIn now : Nat) (u : Account) : Prop :=
  let o1 := signIn store logs email pw secret expIn now
  let o2 := signIn o1.store o1.logs email pw secret expIn now
  let o3 := signIn o2.store o2.logs email pw secret expIn now
  let o4 := signIn o3.store o3.logs email pw secret expIn now
  let o5 := signIn o4.store o4.logs email pw secret expIn now
  (o1.result = .nextError ⟨"Invalid password. 4 attempts remaining", 401⟩
      ∧ o1.logs = logs ++ [failedEntry u email]
      ∧ findOne o1.store email = some { u with loginAttempts := 1 })
  ∧ (o2.result = .nextError ⟨"Invalid password. 3 attempts remaining", 401⟩
      ∧ o2.logs = o1.logs ++ [failedEntry u email]
      ∧ findOne o2.store email = some { u with loginAttempts := 2 })
  ∧ (o3.result = .nextError ⟨"Invalid password. 2 attempts remaining", 401⟩
      ∧ o3.logs = o2.logs ++ [failedEntry u email]
      ∧ findOne o3.store email = some { u with loginAttempts := 3 })
  ∧ (o4.result = .nextError ⟨"Invalid password. 1 attempts remaining", 401⟩
      ∧ o4.logs = o3.logs ++ [failedEntry u email]
      ∧ findOne o4.store email = some { u with loginAttempts := 4 })
  ∧ (o5.result = .nextError
        ⟨"Account locked due to multiple failed attempts. Please contact administrator", 403⟩
      ∧ o5.logs = o4.logs
      ∧ findOne o5.store email = some { u with loginAttempts := 5, isLocked := true })

/-- The lockout invariant of the spec: a locked account has at least 5
recorded failed attempts. -/
def lockInv (store : UserStore) : Prop :=
  ∀ u ∈ store, u.isLocked = true → 5 ≤ u.loginAttempts

/-- One controller operation on the user store: any `signUp`, `signIn`,
`resetPassword` or `verifyEmail` call with arbitrary request data
(`forgotPassword` and `signOut` never mutate the store). -/
inductive AuthStep : UserStore → UserStore → Prop where
  | ofSignUp (store : UserStore) (req : SignUpReq) (secret : String)
      (expiresIn now salt : Nat) (mailErr : Option ErrObj) :
      AuthStep store (signUp store req secret expiresIn now salt mailErr).1
  | ofSignIn (store : UserStore) (logs : List LoginLogEntry)
      (email password secret : String) (expiresIn now : Nat) :
      AuthStep store (signIn store logs email password secret expiresIn now).store
  | ofReset (store : UserStore) (token : Option Jwt) (password : Option String)
      (secret : String) (now salt : Nat) :
      AuthStep store (resetPassword store token password secret now salt).1
  | ofVerify (store : UserStore) (token : Jwt) (secret : String) (now : Nat) :
      AuthStep store (verifyEmail store token secret now).1

/-- A user store reachable from the empty collection by controller
operations. -/
def authReachable (store : UserStore) : Prop :=
  Relation.ReflTransGen AuthStep [] store

/- Concrete fixtures used by the witnesses. -/

/-- A verified, unlocked account with no failed attempts. -/
def acctFresh : Account :=
  { id := 1
    name := "Alice"
    email := "alice@example.com"
    password := bcryptHash 10 "hunter2"
    isVerified := true
    isLocked := false
    loginAttempts := 0 }

/-- A well-formed sign-up request. -/
def reqOk : SignUpReq :=
  { name := "Bob"
    email := "bob@example.com"
    password := some "pass1"
    confirmPassword := some "pass1" }

/-- A verified, unlocked account with two failed attempts on record. -/
def acctTried : Account := { acctFresh with loginAttempts := 2 }

/-- An account that has not verified its email yet. -/
def acctUnverified : Account := { acctFresh with isVerified := false }

/-- An account registered under the email of `reqOk`. -/
def acctBob : Account :=
  { id := 0
    name := "Bob"
    email := "bob@example.com"
    password := bcryptHash 10 "pass1"
    isVerified := false
    isLocked := false
    loginAttempts := 0 }

/-- A sign-up request for an already-registered email whose password and
confirmPassword differ (both present). -/
def reqMismatchExisting : SignUpReq :=
  { name := "Bob"
    email := "bob@example.com"
    password := some "p1"
    confirmPassword := some "p2" }

/-- A sign-up request with the confirmPassword field absent. -/
def reqNoConfirm : SignUpReq :=
  { name := "Carol"
    email := "carol@example.com"
    password := some "p1"
    confirmPassword := none }

/- Store lemmas: how `findOne`/`findById` interact with `saveUser`. -/

/-- Finding after a save: if a search found `u` and the saved document `u'`
has the same id and still satisfies the search predicate, the search now
finds `u'`. -/
theorem find?_saveUser_self {p : Account → Bool} {store : UserStore}
    {u u' : Account} (h : store.find? p = some u) (hid : u'.id = u.id)
    (hp : p u' = true) : (saveUser store u').find? p = some u' := by
  induction store with
  | nil => simp at h
  | cons v vs ih =>
    by_cases hv : p v = true
    · rw [List.find?_cons_of_pos _ hv] at h
      injection h with h
      subst h
      have hbeq : (v.id == u'.id) = true := by simp [hid]
      simp only [saveUser, List.map_cons, hbeq, if_pos]
      exact List.find?_cons_of_pos _ hp
    · rw [List.find?_cons_of_neg _ hv] at h
      by_cases hidv : (v.id == u'.id) = true
      · simp only [saveUser, List.map_cons, hidv, if_pos]
        exact List.find?_cons_of_pos _ hp
      · simp only [saveUser, List.map_cons]
        rw [if_neg hidv, List.find?_cons_of_neg _ hv]
        simpa [saveUser] using ih h

/-- `findOne` still finds a document after it is saved under the same id and
email. -/
theorem findOne_saveUser_self {store : UserStore} {email : String}
    {u u' : Account} (h : findOne store email = some u) (hid : u'.id = u.id)
    (hem : u'.email = u.email) : findOne (saveUser store u') email = some u' := by
  unfold findOne at h ⊢
  have hpu := List.find?_some h
  simp only at hpu
  exact find?_saveUser_self h hid (by show (u'.email == email) = true; rw [hem]; exact hpu)

/-- `findById` finds the saved version of a document it found before. -/
theorem findById_saveUser_self {store : UserStore} {i : Nat} {u u' : Account}
    (h : findById store i = some u) (hid : u'.id = u.id) :
    findById (saveUser store u') i = some u' := by
  unfold findById at h ⊢
  have hpu := List.find?_some h
  simp only at hpu
  exact find?_saveUser_self h hid (by show (u'.id == i) = true; rw [hid]; exact hpu)

/-- Every member of a saved store is the saved document or an old member. -/
theorem mem_saveUser {store : UserStore} {u v : Account}
    (h : v ∈ saveUser store u) : v = u ∨ v ∈ store := by
  obtain ⟨w, hw, hfw⟩ := List.mem_map.mp h
  by_cases hid : (w.id == u.id) = true
  · rw [if_pos hid] at hfw
    exact Or.inl hfw.symm
  · rw [if_neg hid] at hfw
    exact Or.inr (hfw ▸ hw)

/- Branch lemmas for `signIn`. -/

/-- A wrong password below the lock threshold: the attempt counter is
incremented and saved, one failed log entry is appended, and the handler
forwards a 401 with the remaining-attempts count. -/
theorem signIn_wrong_sub {store : UserStore} {logs : List LoginLogEntry}
    {email pw secret : String} {expIn now : Nat} {u : Account} {k : Nat}
    (hu : findOne store email = some u) (hv : u.isVerified = true)
    (hl : u.isLocked = false) (hpw : bcryptCompare pw u.password = false)
    (ha : u.loginAttempts = k) (hlt : k + 1 < 5) :
    signIn store logs email pw secret expIn now =
      ⟨saveUser store { u with loginAttempts := k + 1 },
       logs ++ [createLoginLog (some u) email "failed" (some "Invalid password")],
       .nextError ⟨"Invalid password. " ++ toString (5 - (k + 1))
                     ++ " attempts remaining", 401⟩⟩ := by
  unfold signIn
  rw [hu]
  simp only [hv, hl, hpw, Bool.not_true, Bool.not_false, if_false, if_true,
    Bool.false_eq_true, Bool.true_eq_false, ite_false, ite_true]
  rw [ha, if_neg (by omega)]
  simp [createLoginLog]

/-- A wrong password that reaches the threshold: the counter is incremented,
the account is locked and saved, no log entry is written, and the handler
forwards a 403. -/
theorem signIn_wrong_lock {store : UserStore} {logs : List LoginLogEntry}
    {email pw secret : String} {expIn now : Nat} {u : Account} {k : Nat}
    (hu : findOne store email = some u) (hv : u.isVerified = true)
    (hl : u.isLocked = false) (hpw : bcryptCompare pw u.password = false)
    (ha : u.loginAttempts = k) (hge : 5 ≤ k + 1) :
    signIn store logs email pw secret expIn now =
      ⟨saveUser store { u with loginAttempts := k + 1, isLocked := true },
       logs,
       .nextError ⟨"Account locked due to multiple failed attempts. Please contact administrator",
                     403⟩⟩ := by
  unfold signIn
  rw [hu]
  simp only [hv, hl, hpw, Bool.not_true, Bool.not_false, if_false, if_true,
    Bool.false_eq_true, Bool.true_eq_false, ite_false, ite_true]
  rw [ha, if_pos (by omega)]

/-- A correct password after prior failures: the counter is reset to 0 and
saved, one success log entry is appended, and the handler returns the session
token together with the (reset) account. -/
theorem signIn_correct_pos {store : UserStore} {logs : List LoginLogEntry}
    {email pw secret : String} {expIn now : Nat} {u : Account}
    (hu : findOne store email = some u) (hv : u.isVerified = true)
    (hl : u.isLocked = false) (hpw : bcryptCompare pw u.password = true)
    (hpos : 0 < u.loginAttempts) :
    signIn store logs email pw secret expIn now =
      ⟨saveUser store { u with loginAttempts := 0 },
       logs ++ [createLoginLog (some { u with loginAttempts := 0 }) email "success" none],
       .ok (jwtSign ⟨u.id⟩ secret expIn now) { u with loginAttempts := 0 }⟩ := by
  unfold signIn
  rw [hu]
  simp only [hv, hl, hpw, Bool.not_true, Bool.not_false, if_false, if_true,
    Bool.false_eq_true, Bool.true_eq_false, ite_false, ite_true]
  rw [if_pos hpos]
  simp only [if_pos hpos]


/-- C1: for every account that is verified, unlocked and has
`loginAttempts = 0`, five consecutive sign-in calls with a wrong password
behave as follows: attempts 1-4 each increment and persist `loginAttempts`,
append exactly one failed `LoginLogEntry` with reason "Invalid password" and
return a 401 error with remaining-attempts count 4, 3, 2, 1; the 5th attempt
sets `isLocked = true`, persists, returns a 403 error and appends no log
entry. -/
theorem C1_lockout_sequence {store : UserStore} {logs : List LoginLogEntry}
    {email pw secret : String} {expIn now : Nat} {u : Account}
    (hu : findOne store email = some u) (hv : u.isVerified = true)
    (hl : u.isLocked = false) (ha : u.loginAttempts = 0)
    (hpw : bcryptCompare pw u.password = false) :
    lockoutScenario store logs email pw secret expIn now u := by
  have e1 : signIn store logs email pw secret expIn now =
      ⟨saveUser store { u with loginAttempts := 1 },
       logs ++ [failedEntry u email],
       .nextError ⟨"Invalid password. 4 attempts remaining", 401⟩⟩ :=
    signIn_wrong_sub hu hv hl hpw ha (by omega)
  have hu1 : findOne (saveUser store { u with loginAttempts := 1 }) email
      = some { u with loginAttempts := 1 } := findOne_saveUser_self hu rfl rfl
  have e2 : signIn (saveUser store { u with loginAttempts := 1 })
      (logs ++ [failedEntry u email]) email pw secret expIn now =
      ⟨saveUser (saveUser store { u with loginAttempts := 1 }) { u with loginAttempts := 2 },
       (logs ++ [failedEntry u email]) ++ [failedEntry u email],
       .nextError ⟨"Invalid password. 3 attempts remaining", 401⟩⟩ :=
    signIn_wrong_sub (u := { u with loginAttempts := 1 }) hu1 hv hl hpw rfl (by omega)
  have hu2 : findOne
      (saveUser (saveUser store { u with loginAttempts := 1 }) { u with loginAttempts := 2 })
      email = some { u with loginAttempts := 2 } := findOne_saveUser_self hu1 rfl rfl
  have e3 : signIn
      (saveUser (saveUser store { u with loginAttempts := 1 }) { u with loginAttempts := 2 })
      ((logs ++ [failedEntry u email]) ++ [failedEntry u email]) email pw secret expIn now =
      ⟨saveUser (saveUser (saveUser store { u with loginAttempts := 1 })
          { u with loginAttempts := 2 }) { u with loginAttempts := 3 },
       ((logs ++ [failedEntry u email]) ++ [failedEntry u email]) ++ [failedEntry u email],
       .nextError ⟨"Invalid password. 2 attempts remaining", 401⟩⟩ :=
    signIn_wrong_sub (u := { u with loginAttempts := 2 }) hu2 hv hl hpw rfl (by omega)
  have hu3 : findOne
      (saveUser (saveUser (saveUser store { u with loginAttempts := 1 })
        { u with loginAttempts := 2 }) { u with loginAttempts := 3 })
      email = some { u with loginAttempts := 3 } := findOne_saveUser_self hu2 rfl rfl
  have e4 : signIn
      (saveUser (saveUser (saveUser store { u with loginAttempts := 1 })
        { u with loginAttempts := 2 }) { u with loginAttempts := 3 })
      (((logs ++ [failedEntry u email]) ++ [failedEntry u email]) ++ [failedEntry u email])
      email pw secret expIn now =
      ⟨saveUser (saveUser (saveUser (saveUser store { u with loginAttempts := 1 })
          { u with loginAttempts := 2 }) { u with loginAttempts := 3 })
          { u with loginAttempts := 4 },
       (((logs ++ [failedEntry u email]) ++ [failedEntry u email]) ++ [failedEntry u email])
         ++ [failedEntry u email],
       .nextError ⟨"Invalid password. 1 attempts remaining", 401⟩⟩ :=
    signIn_wrong_sub (u := { u with loginAttempts := 3 }) hu3 hv hl hpw rfl (by omega)
  have hu4 : findOne
      (saveUser (saveUser (saveUser (saveUser store { u with loginAttempts := 1 })
        { u with loginAttempts := 2 }) { u with loginAttempts := 3 })
        { u with loginAttempts := 4 })
      email = some { u with loginAttempts := 4 } := findOne_saveUser_self hu3 rfl rfl
  have e5 : signIn
      (saveUser (saveUser (saveUser (saveUser store { u with loginAttempts := 1 })
        { u with loginAttempts := 2 }) { u with loginAttempts := 3 })
        { u with loginAttempts := 4 })
      ((((logs ++ [failedEntry u email]) ++ [failedEntry u email]) ++ [failedEntry u email])
        ++ [failedEntry u email]) email pw secret expIn now =
      ⟨saveUser (saveUser (saveUser (saveUser (saveUser store { u with loginAttempts := 1 })
          { u with loginAttempts := 2 }) { u with loginAttempts := 3 })
          { u with loginAttempts := 4 }) { u with loginAttempts := 5, isLocked := true },
       (((logs ++ [failedEntry u email]) ++ [failedEntry u email]) ++ [failedEntry u email])
         ++ [failedEntry u email],
       .nextError
         ⟨"Account locked due to multiple failed attempts. Please contact administrator", 403⟩⟩ :=
    signIn_wrong_lock (u := { u with loginAttempts := 4 }) hu4 hv hl hpw rfl (by omega)
  have hu5 : findOne
      (saveUser (saveUser (saveUser (saveUser (saveUser store { u with loginAttempts := 1 })
        { u with loginAttempts := 2 }) { u with loginAttempts := 3 })
        { u with loginAttempts := 4 }) { u with loginAttempts := 5, isLocked := true })
      email = some { u with loginAttempts := 5, isLocked := true } :=
    findOne_saveUser_self hu4 rfl rfl
  simp only [lockoutScenario, e1, e2, e3, e4, e5, hu1, hu2, hu3, hu4, hu5,
    and_true, true_and, and_self]

/-- Witness for C1: the lockout scenario evaluated on a concrete fresh
account and a concrete wrong password. -/
theorem C1_lockout_sequence_witness :
    lockoutScenario [acctFresh] [] "alice@example.com" "wrong" "secret" 3600 0 acctFresh :=
  C1_lockout_sequence (by decide) (by decide) (by decide) (by decide) (by decide)

/-- C3: for every verified, unlocked account with `loginAttempts > 0`, a
sign-in call with the correct password resets `loginAttempts` to 0, persists
the account, issues a session token, writes exactly one success
`LoginLogEntry`, and returns the token together with the account. -/
theorem C3_success_resets_attempts {store : UserStore} {logs : List LoginLogEntry}
    {email pw secret : String} {expIn now : Nat} {u : Account}
    (hu : findOne store email = some u) (hv : u.isVerified = true)
    (hl : u.isLocked = false) (hpos : 0 < u.loginAttempts)
    (hpw : bcryptCompare pw u.password = true) :
    signIn store logs email pw secret expIn now =
      ⟨saveUser store { u with loginAttempts := 0 },
       logs ++ [createLoginLog (some { u with loginAttempts := 0 }) email "success" none],
       .ok (jwtSign ⟨u.id⟩ secret expIn now) { u with loginAttempts := 0 }⟩
    ∧ findOne (signIn store logs email pw secret expIn now).store email
        = some { u with loginAttempts := 0 } := by
  have e : signIn store logs email pw secret expIn now =
      ⟨saveUser store { u with loginAttempts := 0 },
       logs ++ [createLoginLog (some { u with loginAttempts := 0 }) email "success" none],
       .ok (jwtSign ⟨u.id⟩ secret expIn now) { u with loginAttempts := 0 }⟩ :=
    signIn_correct_pos hu hv hl hpw hpos
  refine ⟨e, ?_⟩
  rw [e]
  exact findOne_saveUser_self hu rfl rfl

/-- Witness for C3: a concrete account with two failed attempts signs in with
the correct password. -/
theorem C3_success_resets_attempts_witness :
    signIn [acctTried] [] "alice@example.com" "hunter2" "secret" 3600 0 =
      ⟨saveUser [acctTried] { acctTried with loginAttempts := 0 },
       [createLoginLog (some { acctTried with loginAttempts := 0 })
          "alice@example.com" "success" none],
       .ok (jwtSign ⟨1⟩ "secret" 3600 0) { acctTried with loginAttempts := 0 }⟩ :=
  (C3_success_resets_attempts (u := acctTried) (by decide) (by decide) (by decide)
    (by decide) (by decide)).1

/- Preservation of the lockout invariant by each operation. -/

/-- Saving a document that satisfies the lockout bound preserves the
invariant. -/
theorem lockInv_mem_save {store : UserStore} {u' : Account} (h : lockInv store)
    (hu : u'.isLocked = true → 5 ≤ u'.loginAttempts) : lockInv (saveUser store u') := by
  intro v hv hlock
  rcases mem_saveUser hv with rfl | hmem
  · exact hu hlock
  · exact h v hmem hlock

/-- `signUp` preserves the lockout invariant: it only appends an unlocked
account. -/
theorem lockInv_signUp (store : UserStore) (req : SignUpReq) (secret : String)
    (expIn now salt : Nat) (mailErr : Option ErrObj) (h : lockInv store) :
    lockInv (signUp store req secret expIn now salt mailErr).1 := by
  simp only [signUp]
  split
  · exact h
  · split
    · exact h
    · split
      · exact h
      · split <;>
        · intro v hv hlock
          rcases List.mem_append.mp hv with hmem | hmem
          · exact h v hmem hlock
          · simp at hmem
            subst hmem
            simp at hlock

/-- `signIn` preserves the lockout invariant: the only branch that sets
`isLocked` has just incremented `loginAttempts` to at least 5. -/
theorem lockInv_signIn (store : UserStore) (logs : List LoginLogEntry)
    (email pw secret : String) (expIn now : Nat) (h : lockInv store) :
    lockInv (signIn store logs email pw secret expIn now).store := by
  unfold signIn
  split
  · exact h
  rename_i user heq
  split
  · exact h
  split
  · exact h
  rename_i hnlock
  split
  · split
    · rename_i hthresh
      exact lockInv_mem_save h (fun _ => by simpa using hthresh)
    · refine lockInv_mem_save h (fun hlock => absurd ?_ hnlock)
      simpa using hlock
  · simp only
    split
    · refine lockInv_mem_save h (fun hlock => absurd ?_ hnlock)
      simpa using hlock
    · exact h

/-- `resetPassword` preserves the lockout invariant: it only saves an
unlocked account. -/
theorem lockInv_reset (store : UserStore) (token : Option Jwt)
    (password : Option String) (secret : String) (now salt : Nat)
    (h : lockInv store) :
    lockInv (resetPassword store token password secret now salt).1 := by
  unfold resetPassword
  split
  · exact h
  split
  · exact h
  split
  · exact h
  split
  · exact h
  refine lockInv_mem_save h (fun hlock => ?_)
  simp at hlock

/-- `verifyEmail` preserves the lockout invariant: it leaves `isLocked` and
`loginAttempts` unchanged on the document it saves. -/
theorem lockInv_verify (store : UserStore) (token : Jwt) (secret : String)
    (now : Nat) (h : lockInv store) :
    lockInv (verifyEmail store token secret now).1 := by
  unfold verifyEmail
  split
  · exact h
  split
  · exact h
  rename_i decodedToken user hfind
  split
  · exact h
  refine lockInv_mem_save h (fun hlock => ?_)
  have hmem : user ∈ store := List.mem_of_find?_eq_some hfind
  exact h user hmem (by simpa using hlock)

/-- C2: the invariant `isLocked = true → loginAttempts ≥ 5` holds in every
store reachable from the empty collection by sign-up, sign-in,
reset-password and verify-email operations. -/
theorem C2_lockout_invariant {store : UserStore} (h : authReachable store) :
    lockInv store := by
  unfold authReachable at h
  induction h with
  | refl => intro v hv _; simp at hv
  | tail hab hstep ih =>
    cases hstep with
    | ofSignUp req secret expIn now salt mailErr =>
      exact lockInv_signUp _ req secret expIn now salt mailErr ih
    | ofSignIn logs email pw secret expIn now =>
      exact lockInv_signIn _ logs email pw secret expIn now ih
    | ofReset token password secret now salt =>
      exact lockInv_reset _ token password secret now salt ih
    | ofVerify token secret now =>
      exact lockInv_verify _ token secret now ih

/-- Witness for C2: the invariant evaluated on the store obtained by one
concrete sign-up from the empty collection. -/
theorem C2_lockout_invariant_witness :
    lockInv (signUp [] reqOk "secret" 86400 0 10 none).1 :=
  C2_lockout_invariant
    (Relation.ReflTransGen.single (AuthStep.ofSignUp [] reqOk "secret" 86400 0 10 none))

/-- C4: a reset-password call with a validly-signed, unexpired token whose
subject resolves to an account replaces that account's password hash with a
hash of the new password, resets `loginAttempts` to 0, clears `isLocked` and
persists; afterwards the new password matches the stored hash and the old
one (when different) does not. -/
theorem C4_reset_password_roundtrip {store : UserStore} {token : Jwt}
    {newPw oldPw secret : String} {now salt : Nat} {p : JwtPayload} {u : Account}
    (hver : jwtVerify token secret now = some p)
    (hfind : findById store p.userId = some u)
    (hne : newPw.isEmpty = false) (hold : oldPw ≠ newPw) :
    (resetPassword store (some token) (some newPw) secret now salt).2 = .ok
    ∧ findById (resetPassword store (some token) (some newPw) secret now salt).1 p.userId
        = some { u with password := bcryptHash salt newPw,
                        loginAttempts := 0, isLocked := false }
    ∧ bcryptCompare newPw (bcryptHash salt newPw) = true
    ∧ bcryptCompare oldPw (bcryptHash salt newPw) = false := by
  have e : resetPassword store (some token) (some newPw) secret now salt =
      (saveUser store { u with password := bcryptHash salt newPw,
                               loginAttempts := 0, isLocked := false },
       .ok) := by
    unfold resetPassword
    simp [strFalsy, hne, hver, hfind]
  refine ⟨by rw [e], ?_, ?_, ?_⟩
  · rw [e]
    exact findById_saveUser_self hfind rfl
  · simp [bcryptCompare, bcryptHash]
  · simp [bcryptCompare, bcryptHash]
    exact hold

/-- Witness for C4: a concrete reset of `acctFresh` via a fresh valid token,
with "newpass" replacing "hunter2". -/
theorem C4_reset_password_roundtrip_witness :
    (resetPassword [acctFresh] (some (jwtSign ⟨1⟩ "secret" 3600 0))
        (some "newpass") "secret" 10 7).2 = .ok
    ∧ findById (resetPassword [acctFresh] (some (jwtSign ⟨1⟩ "secret" 3600 0))
        (some "newpass") "secret" 10 7).1 (1 : Nat)
        = some { acctFresh with password := bcryptHash 7 "newpass",
                                loginAttempts := 0, isLocked := false }
    ∧ bcryptCompare "newpass" (bcryptHash 7 "newpass") = true
    ∧ bcryptCompare "hunter2" (bcryptHash 7 "newpass") = false :=
  C4_reset_password_roundtrip (p := ⟨1⟩) (u := acctFresh)
    (by decide) (by decide) (by decide) (by decide)

/-- C5: verify-email with a valid token for an unverified account sets
`isVerified = true` and persists; replaying verify-email with the same valid
token returns the direct "already verified" response and leaves the store
unchanged. -/
theorem C5_verify_email_idempotent {store : UserStore} {token : Jwt}
    {secret : String} {n m : Nat} {p : JwtPayload} {u : Account}
    (h1 : jwtVerify token secret n = some p)
    (h2 : jwtVerify token secret m = some p)
    (hfind : findById store p.userId = some u)
    (hunv : u.isVerified = false) :
    verifyEmail store token secret n =
      (saveUser store { u with isVerified := true }, .verified)
    ∧ verifyEmail (verifyEmail store token secret n).1 token secret m =
        ((verifyEmail store token secret n).1, .alreadyVerified) := by
  have e1 : verifyEmail store token secret n =
      (saveUser store { u with isVerified := true }, .verified) := by
    unfold verifyEmail
    rw [h1]
    simp [hfind, hunv]
  refine ⟨e1, ?_⟩
  rw [e1]
  have hfind2 : findById (saveUser store { u with isVerified := true }) p.userId
      = some { u with isVerified := true } := findById_saveUser_self hfind rfl
  unfold verifyEmail
  rw [h2]
  simp [hfind2]

/-- Witness for C5: verifying `acctUnverified` with a concrete valid token,
then replaying the same token. -/
theorem C5_verify_email_idempotent_witness :
    verifyEmail [acctUnverified] (jwtSign ⟨1⟩ "secret" 86400 0) "secret" 5 =
      (saveUser [acctUnverified] { acctUnverified with isVerified := true }, .verified)
    ∧ verifyEmail (verifyEmail [acctUnverified] (jwtSign ⟨1⟩ "secret" 86400 0) "secret" 5).1
        (jwtSign ⟨1⟩ "secret" 86400 0) "secret" 6 =
        ((verifyEmail [acctUnverified] (jwtSign ⟨1⟩ "secret" 86400 0) "secret" 5).1,
         .alreadyVerified) :=
  C5_verify_email_idempotent (p := ⟨1⟩) (u := acctUnverified)
    (by decide) (by decide) (by decide) (by decide)

/-- Counterexample to C6 as stated: with an account already registered under
the email and mismatched (both present) password fields, sign-up forwards
the 409 "User already exists" ConflictError — not a 400 ValidationError —
because the code checks the duplicate email before the password mismatch.
No account is created. -/
theorem C6_counterexample :
    (signUp [acctBob] reqMismatchExisting "secret" 86400 0 10 none).2
        = SignUpResult.nextError ⟨"User already exists", 409⟩
    ∧ (signUp [acctBob] reqMismatchExisting "secret" 86400 0 10 none).1 = [acctBob] := by
  decide

/-- C6 (amended): a sign-up call whose password differs from confirmPassword
never creates an account; the response is the direct 400
"Confirm password is empty" answer when confirmPassword is falsy, otherwise
the 409 ConflictError when an account with the email already exists (the
code orders this check before the mismatch check), and otherwise the 400
"Passwords do not match" ValidationError. -/
theorem C6_mismatch_no_account (store : UserStore) (req : SignUpReq)
    (secret : String) (expIn now salt : Nat) (mailErr : Option ErrObj)
    (hmm : req.password ≠ req.confirmPassword) :
    (signUp store req secret expIn now salt mailErr).1 = store
    ∧ (if strFalsy req.confirmPassword then
          (signUp store req secret expIn now salt mailErr).2
            = SignUpResult.confirmPasswordEmpty
       else if (findOne store req.email).isSome then
          (signUp store req secret expIn now salt mailErr).2
            = SignUpResult.nextError ⟨"User already exists", 409⟩
       else
          (signUp store req secret expIn now salt mailErr).2
            = SignUpResult.nextError ⟨"Passwords do not match", 400⟩) := by
  unfold signUp
  by_cases h1 : strFalsy req.confirmPassword = true
  · simp [h1]
  · by_cases h2 : (findOne store req.email).isSome = true
    · simp [h1, h2]
    · simp [h1, h2, hmm]

/-- Witness for the amended C6 at the concrete counterexample input. -/
theorem C6_mismatch_no_account_witness :
    (signUp [acctBob] reqMismatchExisting "secret" 86400 0 10 none).1 = [acctBob]
    ∧ (if strFalsy reqMismatchExisting.confirmPassword then
          (signUp [acctBob] reqMismatchExisting "secret" 86400 0 10 none).2
            = SignUpResult.confirmPasswordEmpty
       else if (findOne [acctBob] reqMismatchExisting.email).isSome then
          (signUp [acctBob] reqMismatchExisting "secret" 86400 0 10 none).2
            = SignUpResult.nextError ⟨"User already exists", 409⟩
       else
          (signUp [acctBob] reqMismatchExisting "secret" 86400 0 10 none).2
            = SignUpResult.nextError ⟨"Passwords do not match", 400⟩) :=
  C6_mismatch_no_account [acctBob] reqMismatchExisting "secret" 86400 0 10 none (by decide)

/-- Counterexample to C7 as stated: sign-up's missing-confirmPassword
failure is answered with the direct `res.status(400).json` response
(`confirmPasswordEmpty`), not forwarded to the centralized responder. -/
theorem C7_counterexample :
    (signUp [] reqNoConfirm "secret" 86400 0 10 none).2
      = SignUpResult.confirmPasswordEmpty := by
  decide

/-- C7 (amended): two outcomes bypass the centralized error responder as
direct responses — verify-email's "already verified" case and sign-up's
missing-confirmPassword case.  Sign-up answers with the direct
`confirmPasswordEmpty` response exactly when confirmPassword is falsy, and
verify-email answers with the direct `alreadyVerified` response exactly when
the token is valid and the resolved account is already verified; every other
failure of either endpoint is a `nextError`. -/
theorem C7_direct_response_bypasses :
    (∀ store req secret expIn now salt mailErr,
        (signUp store req secret expIn now salt mailErr).2
            = SignUpResult.confirmPasswordEmpty
          ↔ strFalsy req.confirmPassword = true)
    ∧ (∀ store token secret now,
        (verifyEmail store token secret now).2 = VerifyResult.alreadyVerified
          ↔ ∃ p u, jwtVerify token secret now = some p
              ∧ findById store p.userId = some u ∧ u.isVerified = true) := by
  constructor
  · intro store req secret expIn now salt mailErr
    unfold signUp
    by_cases h1 : strFalsy req.confirmPassword = true
    · simp [h1]
    · by_cases h2 : (findOne store req.email).isSome = true
      · simp [h1, h2]
      · by_cases h3 : req.password = req.confirmPassword
        · cases mailErr <;> simp [h1, h2, h3]
        · simp [h1, h2, h3]
  · intro store token secret now
    unfold verifyEmail
    cases hv : jwtVerify token secret now with
    | none => simp
    | some p =>
      cases hf : findById store p.userId with
      | none => simp [hf]
      | some u =>
        by_cases hu : u.isVerified = true
        · simp [hf, hu]
        · simp [hf, hu]

/-- Counterexample to C8 as stated: forgot-password with a missing email
forwards an error carrying status code 401, not a 400 ValidationError. -/
theorem C8_counterexample :
    forgotPassword [] none "secret" 0 none
      = ForgotResult.nextError ⟨"Email is required", 401⟩ := by
  decide

/-- C8 (amended): a missing (falsy) email yields the "Email is required"
error with status 401 — the code attaches 401, not the taxonomy's 400 — and
the 404 NotFoundError occurs when the email is present but matches no
account. -/
theorem C8_forgot_password_errors (store : UserStore) (email : Option String)
    (secret : String) (now : Nat) (mailErr : Option ErrObj) :
    (strFalsy email = true →
        forgotPassword store email secret now mailErr
          = ForgotResult.nextError ⟨"Email is required", 401⟩)
    ∧ (strFalsy email = false → findOne store (email.getD "") = none →
        forgotPassword store email secret now mailErr
          = ForgotResult.nextError ⟨"User not found", 404⟩) := by
  constructor
  · intro h
    unfold forgotPassword
    simp [h]
  · intro h hf
    unfold forgotPassword
    simp [h, hf]

/-- Witness for the amended C8: both error branches at concrete inputs. -/
theorem C8_forgot_password_errors_witness :
    forgotPassword [] none "secret" 0 none
      = ForgotResult.nextError ⟨"Email is required", 401⟩
    ∧ forgotPassword [] (some "nobody@example.com") "secret" 0 none
      = ForgotResult.nextError ⟨"User not found", 404⟩ :=
  ⟨(C8_forgot_password_errors [] none "secret" 0 none).1 (by decide),
   (C8_forgot_password_errors [] (some "nobody@example.com") "secret" 0 none).2
     (by decide) (by decide)⟩

/-- C9: when the verification mail send fails on an otherwise valid sign-up,
the mail error is forwarded to the caller as a hard failure, but the account
created before the send remains in the store (no rollback). -/
theorem C9_mail_failure_no_rollback (store : UserStore) (req : SignUpReq)
    (secret : String) (expIn now salt : Nat) (e : ErrObj)
    (hcp : strFalsy req.confirmPassword = false)
    (hex : findOne store req.email = none)
    (heq : req.password = req.confirmPassword) :
    (signUp store req secret expIn now salt (some e)).2 = SignUpResult.nextError e
    ∧ (signUp store req secret expIn now salt (some e)).1
        = store ++ [{ id := store.length, name := req.name, email := req.email,
                      password := bcryptHash salt (req.password.getD ""),
                      isVerified := false, isLocked := false, loginAttempts := 0 }] := by
  unfold signUp
  simp [hcp, hex, heq]

/-- Witness for C9: a concrete valid sign-up whose mail send rejects. -/
theorem C9_mail_failure_no_rollback_witness :
    (signUp [] reqOk "secret" 86400 0 10 (some ⟨"sendMail failed", 502⟩)).2
      = SignUpResult.nextError ⟨"sendMail failed", 502⟩
    ∧ (signUp [] reqOk "secret" 86400 0 10 (some ⟨"sendMail failed", 502⟩)).1
        = [] ++ [{ id := 0, name := reqOk.name, email := reqOk.email,
                   password := bcryptHash 10 (reqOk.password.getD ""),
                   isVerified := false, isLocked := false, loginAttempts := 0 }] :=
  C9_mail_failure_no_rollback [] reqOk "secret" 86400 0 10 ⟨"sendMail failed", 502⟩
    (by decide) (by decide) (by decide)

/-- C10: every login-log entry carries null client address and agent:
`createLoginLog` sets both fields to null unconditionally, and hence every
entry appended by a sign-in call has both fields null. -/
theorem C10_null_client_fields :
    (∀ user email status reason,
        (createLoginLog user email status reason).ipAddress = none
        ∧ (createLoginLog user email status reason).userAgent = none)
    ∧ (∀ store email pw secret expIn now entry,
        entry ∈ (signIn store [] email pw secret expIn now).logs →
          entry.ipAddress = none ∧ entry.userAgent = none) := by
  constructor
  · intro user email status reason
    exact ⟨rfl, rfl⟩
  · intro store email pw secret expIn now entry hmem
    unfold signIn at hmem
    split at hmem
    · simp at hmem
    · split at hmem
      · simp at hmem
      · split at hmem
        · simp at hmem
        · split at hmem
          · split at hmem
            · simp at hmem
            · simp at hmem
              subst hmem
              exact ⟨rfl, rfl⟩
          · simp at hmem
            subst hmem
            exact ⟨rfl, rfl⟩

/-- Witness for C10: the failed entry written by a concrete wrong-password
sign-in has null client address and agent. -/
theorem C10_null_client_fields_witness :
    (failedEntry acctFresh "alice@example.com").ipAddress = none
    ∧ (failedEntry acctFresh "alice@example.com").userAgent = none :=
  C10_null_client_fields.2 [acctFresh] "alice@example.com" "wrong" "secret" 3600 0
    (failedEntry acctFresh "alice@example.com") (by decide)

end NodeAuth
